import Mathlib

/-!
A shallow embedding of the core scoring pipeline of the Parkinson
detection app: the symptom-questionnaire classifier and the multi-modal
aggregator (`src/services/ml/symptomsAnalysis.ts`), the spiral and voice
classifiers (`src/services/ml/realSpiralAnalysis.ts`,
`src/services/ml/realVoiceAnalysis.ts`), the voice jitter/shimmer
extraction, and the posture keypoint geometry
(`PostureFeatureExtractor`).

Conventions of the embedding:
* JavaScript numbers are modelled as exact rationals (`ℚ`), except for the
  posture geometry, which uses `Math.sqrt`/`Math.acos` and is modelled
  over `ℝ`.  Floating-point rounding error is not modelled.
* `Math.random()` values are passed in as explicit parameters, so that
  the classifiers and extractors become pure functions of their inputs
  plus the drawn randomness.
* Free-text fields (`details`, `recommendation`) carry no claim-relevant
  data and are omitted from the embedded records.
* A JavaScript `for` loop that would never terminate (step size 0 with a
  positive bound) is modelled as `Option.none`.
-/

namespace ParkinsonML

/-- JavaScript `Math.round`: round half toward positive infinity. -/
def jsRound (x : ℚ) : ℤ := ⌊x + 1/2⌋

/-- The four severity classes, `"healthy" | "mild" | "moderate" | "severe"`. -/
inductive Status
  | healthy
  | mild
  | moderate
  | severe
deriving DecidableEq, Repr

/-- `statusOrder = { healthy: 0, mild: 1, moderate: 2, severe: 3 }` from
`calculateOverallAssessment`. -/
def statusOrder : Status → ℕ
  | .healthy => 0
  | .mild => 1
  | .moderate => 2
  | .severe => 3

/-- A per-modality assessment result (score, confidence, status); the
free-text `details` field is omitted. -/
structure AssessmentResult where
  score : ℤ
  confidence : ℤ
  status : Status
deriving DecidableEq, Repr

/-- The overall assessment; the canned `recommendation` string (a fixed
function of `status`) is omitted. -/
structure OverallAssessment where
  score : ℤ
  confidence : ℤ
  status : Status
deriving DecidableEq, Repr

/-- The argument of `calculateOverallAssessment`: an optional result per
modality. -/
structure Assessments where
  spiral : Option AssessmentResult
  voice : Option AssessmentResult
  posture : Option AssessmentResult
  symptoms : Option AssessmentResult

/-- The `availableAssessments` list built by `calculateOverallAssessment`:
present modalities in the fixed order spiral, voice, posture, symptoms. -/
def availableAssessments (a : Assessments) : List AssessmentResult :=
  a.spiral.toList ++ a.voice.toList ++ a.posture.toList ++ a.symptoms.toList

/-- The four-band status thresholds of `calculateOverallAssessment`
(lines 91-95): `>= 80` healthy, `>= 65` mild, `>= 45` moderate, else
severe. -/
def overallStatusFromScore (score : ℤ) : Status :=
  if score ≥ 80 then .healthy
  else if score ≥ 65 then .mild
  else if score ≥ 45 then .moderate
  else .severe

/-- The `worstStatus` reduce of `calculateOverallAssessment` (lines
99-102): fold keeping the status of larger `statusOrder`, seeded with
`"healthy"`. -/
def worstStatus (l : List AssessmentResult) : Status :=
  l.foldl (fun worst a => if statusOrder a.status > statusOrder worst then a.status else worst)
    .healthy

/-- `calculateOverallAssessment` of `symptomsAnalysis.ts`: `null` when no
modality result is present, otherwise the rounded means of scores and
confidences, with the mean-derived status escalated to the worst
individual status. -/
def calculateOverallAssessment (a : Assessments) : Option OverallAssessment :=
  let avail := availableAssessments a
  if avail.length = 0 then none
  else
    let totalScore : ℤ := (avail.map (fun r => r.score)).sum
    let totalConfidence : ℤ := (avail.map (fun r => r.confidence)).sum
    let score := jsRound ((totalScore : ℚ) / (avail.length : ℚ))
    let confidence := jsRound ((totalConfidence : ℚ) / (avail.length : ℚ))
    let st := overallStatusFromScore score
    let worst := worstStatus avail
    let status := if statusOrder worst > statusOrder st then worst else st
    some { score := score, confidence := confidence, status := status }

/-- The symptom-questionnaire input.  In the source `age` is a string run
through `parseInt(age) || 0`; the already-parsed integer is taken here. -/
structure SymptomsData where
  age : ℤ
  familyHistory : Bool
  tremor : ℤ
  stiffness : ℤ
  balance : ℤ
  hasFreeze : Bool
  hasSleepIssues : Bool

/-- The accumulated `riskScore` of `analyzeSymptomsData` (lines 21-39):
age bands, family history, weighted symptom severities, freeze and sleep
flags. -/
def symptomsRiskScore (d : SymptomsData) : ℤ :=
  (if d.age > 60 then 15 else if d.age > 50 then 10 else if d.age > 40 then 5 else 0)
  + (if d.familyHistory then 20 else 0)
  + d.tremor * 3 + d.stiffness * 4 + d.balance * 4
  + (if d.hasFreeze then 15 else 0)
  + (if d.hasSleepIssues then 10 else 0)

/-- The four-band status thresholds of `analyzeSymptomsData` (lines
46-50): `>= 80` healthy, `>= 60` mild, `>= 40` moderate, else severe. -/
def symptomsStatusFromScore (score : ℤ) : Status :=
  if score ≥ 80 then .healthy
  else if score ≥ 60 then .mild
  else if score ≥ 40 then .moderate
  else .severe

/-- `analyzeSymptomsData`: score `min 100 (max 0 (100 - riskScore))`,
status from the symptom bands, confidence `round (75 + rand * 15)` where
`rand` is the `Math.random()` draw. -/
def analyzeSymptomsData (d : SymptomsData) (rand : ℚ) : AssessmentResult :=
  let rawScore : ℤ := max 0 (100 - symptomsRiskScore d)
  let score : ℤ := min 100 rawScore
  { score := score
    confidence := jsRound (75 + rand * 15)
    status := symptomsStatusFromScore score }

/-! ### Spiral and voice classifiers -/

/-- The spiral feature vector `{tremor, irregularity, pressure, speed,
smoothness}`. -/
structure SpiralFeatures where
  tremor : ℚ
  irregularity : ℚ
  pressure : ℚ
  speed : ℚ
  smoothness : ℚ

/-- A four-class probability vector, the output shape of the softmax
layer and of the hard-coded tables in `SpiralFeatureExtractor.predict`. -/
structure Probs4 where
  p0 : ℚ
  p1 : ℚ
  p2 : ℚ
  p3 : ℚ
deriving DecidableEq, Repr

/-- `Math.max(...probabilities)` over the four entries. -/
def Probs4.maxVal (p : Probs4) : ℚ := max (max (max p.p0 p.p1) p.p2) p.p3

/-- Indexing `probabilities[i]`; out-of-range reads (never reached, the
index is always 0-3) give the last entry. -/
def Probs4.get (p : Probs4) : ℕ → ℚ
  | 0 => p.p0
  | 1 => p.p1
  | 2 => p.p2
  | _ => p.p3

/-- `probabilities.indexOf(Math.max(...probabilities))`: the first index
holding the maximum. -/
def Probs4.maxIndex (p : Probs4) : ℕ :=
  if p.p0 = p.maxVal then 0
  else if p.p1 = p.maxVal then 1
  else if p.p2 = p.maxVal then 2
  else 3

/-- `classLabels = ['healthy', 'mild', 'moderate', 'severe']` indexing. -/
def classLabel : ℕ → Status
  | 0 => .healthy
  | 1 => .mild
  | 2 => .moderate
  | _ => .severe

/-- `overallRisk` of `SpiralFeatureExtractor.predict` (line 287): the
unweighted mean of the five features. -/
def overallRisk (f : SpiralFeatures) : ℚ :=
  (f.tremor + f.irregularity + f.pressure + f.speed + f.smoothness) / 5

/-- The hard-coded probability table of `SpiralFeatureExtractor.predict`
(lines 291-303), keyed by the risk bands `< 0.3`, `< 0.5`, `< 0.7`,
else. -/
def spiralProbs (risk : ℚ) : Probs4 :=
  if risk < 0.3 then ⟨0.85, 0.10, 0.03, 0.02⟩
  else if risk < 0.5 then ⟨0.70, 0.20, 0.07, 0.03⟩
  else if risk < 0.7 then ⟨0.30, 0.50, 0.15, 0.05⟩
  else ⟨0.10, 0.30, 0.40, 0.20⟩

/-- The status-keyed raw score draw of `SpiralFeatureExtractor.predict`
(lines 312-315); `rand` is the `Math.random()` value in `[0,1)`. -/
def spiralScoreRaw (s : Status) (rand : ℚ) : ℚ :=
  match s with
  | .healthy => 85 + rand * 10
  | .mild => 65 + rand * 15
  | .moderate => 45 + rand * 15
  | .severe => 25 + rand * 15

/-- `Math.max(0, Math.min(100, z))`. -/
def clamp0to100 (z : ℤ) : ℤ := max 0 (min 100 z)

/-- `SpiralFeatureExtractor.predict`: probability table from the risk
bands, argmax class as status, that probability times 100 as confidence,
and a status-banded score with cosmetic jitter `rand ∈ [0,1)`. -/
def spiralPredict (f : SpiralFeatures) (rand : ℚ) : AssessmentResult :=
  let probs := spiralProbs (overallRisk f)
  let maxIndex := probs.maxIndex
  let confidence := probs.get maxIndex * 100
  let status := classLabel maxIndex
  let score := spiralScoreRaw status rand
  { score := clamp0to100 (jsRound score)
    confidence := jsRound confidence
    status := status }

/-- `VoiceFeatureExtractor.predict` (and identically
`PostureFeatureExtractor.predict`): the network's four-class output
`probs` gives the argmax status and confidence, and the score is
`100 - 25 * maxIndex + (rand * 10 - 5)` with `rand ∈ [0,1)`, rounded and
clamped to `[0,100]`. -/
def voicePredict (probs : Probs4) (rand : ℚ) : AssessmentResult :=
  let maxIndex := probs.maxIndex
  let confidence := probs.get maxIndex * 100
  let status := classLabel maxIndex
  let score : ℚ := 100 - (maxIndex : ℚ) * 25 + (rand * 10 - 5)
  { score := clamp0to100 (jsRound score)
    confidence := jsRound confidence
    status := status }

/-! ### Voice signal extraction: jitter and shimmer

Audio samples are a `List ℚ`; the sample rate is a `ℕ`.  The JS
`Math.floor(sampleRate * 0.025)` and the period-range bounds are modelled
with natural division. -/

/-- The start offsets `0, step, 2*step, ...` of a JS loop
`for (s = 0; s < bound; s += step)`, where `bound` is computed in ℤ (a
non-positive bound runs zero iterations).  When `step = 0` and the bound
is positive the source loop never terminates; that case is `none`. -/
def loopStarts (bound : ℤ) (step : ℕ) : Option (List ℕ) :=
  if bound ≤ 0 then some []
  else if step = 0 then none
  else some ((List.range ((bound.toNat + step - 1) / step)).map (fun i => i * step))

/-- The inner correlation sum of `extractPeriods`:
`sum over i < frame.length - period of frame[i] * frame[i + period]`. -/
def correlationAt (frame : List ℚ) (period : ℕ) : ℚ :=
  ((List.range (frame.length - period)).map
    (fun i => frame.getD i 0 * frame.getD (i + period) 0)).sum

/-- The candidate periods scanned by `extractPeriods`:
`period = minPeriod; period < maxPeriod && period < frame.length / 2`. -/
def periodCandidates (minPeriod maxPeriod frameLen : ℕ) : List ℕ :=
  (List.range maxPeriod).filter (fun p => minPeriod ≤ p ∧ 2 * p < frameLen)

/-- The best-period scan of one frame in `extractPeriods`: fold keeping
`(bestPeriod, maxCorrelation)`, seeded `(minPeriod, 0)`, updating on a
strictly larger correlation. -/
def bestPeriodOf (frame : List ℚ) (minPeriod maxPeriod : ℕ) : ℕ × ℚ :=
  (periodCandidates minPeriod maxPeriod frame.length).foldl
    (fun acc p =>
      let c := correlationAt frame p
      if c > acc.2 then (p, c) else acc)
    (minPeriod, 0)

/-- `extractPeriods` of `realVoiceAnalysis.ts` (lines 315-346): per 25 ms
frame step, autocorrelation over lags `[sampleRate/500, sampleRate/50)`,
keeping the best period when its correlation exceeds 0.3.  `none` models
the non-terminating loop when the frame step floors to 0. -/
def extractPeriods (audioData : List ℚ) (sampleRate : ℕ) : Option (List ℕ) :=
  let minPeriod := sampleRate / 500
  let maxPeriod := sampleRate / 50
  let frameSize := sampleRate * 25 / 1000
  (loopStarts ((audioData.length : ℤ) - maxPeriod) frameSize).map (fun starts =>
    starts.filterMap (fun start =>
      let frame := (audioData.drop start).take maxPeriod
      let best := bestPeriodOf frame minPeriod maxPeriod
      if best.2 > 0.3 then some best.1 else none))

/-- `calculateJitter` (lines 188-199): mean absolute relative
frame-to-frame period difference; 0 when fewer than two periods. -/
def calculateJitter (audioData : List ℚ) (sampleRate : ℕ) : Option ℚ :=
  (extractPeriods audioData sampleRate).map (fun periods =>
    if periods.length < 2 then 0
    else
      ((List.range (periods.length - 1)).map (fun i =>
        |(periods.getD (i + 1) 0 : ℚ) - (periods.getD i 0 : ℚ)| / (periods.getD i 0 : ℚ))).sum
      / ((periods.length : ℚ) - 1))

/-- The per-frame peak amplitude `maxAmp` of `calculateShimmer`: maximum
of `Math.abs` over the frame, seeded 0. -/
def frameMaxAmp (frame : List ℚ) : ℚ := frame.foldl (fun m x => max m |x|) 0

/-- `calculateShimmer` (lines 201-224): peak amplitude per 25 ms frame,
then the mean over frame transitions of the relative amplitude change,
each term guarded by `amplitudes[i-1] > 0`; 0 when fewer than two
frames.  `none` models the non-terminating loop when the frame size
floors to 0. -/
def calculateShimmer (audioData : List ℚ) (sampleRate : ℕ) : Option ℚ :=
  let frameSize := sampleRate * 25 / 1000
  (loopStarts ((audioData.length : ℤ) - frameSize) frameSize).map (fun starts =>
    let amplitudes := starts.map (fun start => frameMaxAmp ((audioData.drop start).take frameSize))
    if amplitudes.length < 2 then 0
    else
      ((List.range (amplitudes.length - 1)).map (fun i =>
        if amplitudes.getD i 0 > 0 then
          |amplitudes.getD (i + 1) 0 - amplitudes.getD i 0| / amplitudes.getD i 0
        else 0)).sum
      / ((amplitudes.length : ℚ) - 1))

/-! ### Posture keypoint geometry (`PostureFeatureExtractor`)

The geometry uses `Math.acos` and `Math.sqrt`, so it is modelled over
`ℝ`.  Division by zero (a degenerate spine line) yields 0 under Lean's
convention. -/

/-- A 2-D pixel coordinate. -/
structure Pt where
  x : ℝ
  y : ℝ

/-- The 13 anatomical keypoints consumed by
`PostureFeatureExtractor.calculateClinicalFeatures`. -/
structure Keypoints where
  nose : Pt
  leftShoulder : Pt
  rightShoulder : Pt
  leftElbow : Pt
  rightElbow : Pt
  leftWrist : Pt
  rightWrist : Pt
  leftHip : Pt
  rightHip : Pt
  leftKnee : Pt
  rightKnee : Pt
  leftAnkle : Pt
  rightAnkle : Pt

/-- `calculateAngle(p1, p2, p3)`: the angle at `p2` in degrees, the
cosine clamped to `[-1, 1]` before `Math.acos`. -/
noncomputable def calculateAngle (p1 p2 p3 : Pt) : ℝ :=
  let v1x := p1.x - p2.x
  let v1y := p1.y - p2.y
  let v2x := p3.x - p2.x
  let v2y := p3.y - p2.y
  let dot := v1x * v2x + v1y * v2y
  let mag1 := Real.sqrt (v1x ^ 2 + v1y ^ 2)
  let mag2 := Real.sqrt (v2x ^ 2 + v2y ^ 2)
  let c := dot / (mag1 * mag2)
  Real.arccos (max (-1) (min 1 c)) * 180 / Real.pi

/-- `calculateDistance(p1, p2)`: Euclidean distance. -/
noncomputable def calculateDistance (p1 p2 : Pt) : ℝ :=
  Real.sqrt ((p1.x - p2.x) ^ 2 + (p1.y - p2.y) ^ 2)

/-- `pointToLineDistance(point, lineStart, lineEnd)`: distance from a
point to the line through two points, via the implicit line equation. -/
noncomputable def pointToLineDistance (point lineStart lineEnd : Pt) : ℝ :=
  let A := lineEnd.y - lineStart.y
  let B := lineStart.x - lineEnd.x
  let C := lineEnd.x * lineStart.y - lineStart.x * lineEnd.y
  |A * point.x + B * point.y + C| / Real.sqrt (A ^ 2 + B ^ 2)

/-- `calculateSpinalDeviation(spinePoints)`: the maximum distance of the
interior points from the line through the first and last point,
normalized by the image height 224. -/
noncomputable def calculateSpinalDeviation (spinePoints : List Pt) : ℝ :=
  if spinePoints.length < 3 then 0
  else
    let start := spinePoints.getD 0 ⟨0, 0⟩
    let stop := spinePoints.getD (spinePoints.length - 1) ⟨0, 0⟩
    (((spinePoints.drop 1).take (spinePoints.length - 2)).map
      (fun p => pointToLineDistance p start stop)).foldl max 0 / 224

/-- JS `Array.reduce` without an initial value: the first element seeds
the accumulator and the function runs over the rest (throws on an empty
array in JS; the empty case, never reached here, is 0). -/
def jsReduce (f : ℝ → ℝ → ℝ) : List ℝ → ℝ
  | [] => 0
  | x :: xs => xs.foldl f x

/-- `calculateRigidityIndex(angles)`: `1 - variance / 1000`.  Note the
source's `reduce((a, b) => a + Math.pow(b - mean, 2))` has no initial
value, so the first angle enters the sum raw instead of as a squared
deviation; the embedding reproduces that. -/
noncomputable def calculateRigidityIndex (angles : List ℝ) : ℝ :=
  let mean := jsReduce (fun a b => a + b) angles / angles.length
  let variance := jsReduce (fun a b => a + (b - mean) ^ 2) angles / angles.length
  1 - variance / 1000

/-- The fabricated gait parameters (lines 202-206): functions of three
`Math.random()` draws only. -/
structure GaitParameters where
  stepLength : ℝ
  cadence : ℝ
  swingTime : ℝ

/-- The posture feature vector. -/
structure PostureFeatures where
  forwardHeadPosture : ℝ
  shoulderAsymmetry : ℝ
  spinalCurvature : ℝ
  armSwingAsymmetry : ℝ
  bodyRigidity : ℝ
  balanceIndex : ℝ
  gaitParameters : GaitParameters

/-- The three `Math.random()` draws used for the gait parameters. -/
structure RandomDraws where
  r1 : ℝ
  r2 : ℝ
  r3 : ℝ

/-- `PostureFeatureExtractor.calculateClinicalFeatures`: the six clinical
features from keypoint geometry, plus gait parameters fabricated from
the random draws. -/
noncomputable def calculateClinicalFeatures (k : Keypoints) (rand : RandomDraws) :
    PostureFeatures :=
  let neckAngle := calculateAngle k.nose k.leftShoulder k.rightShoulder
  let forwardHeadPosture := |neckAngle - 90| / 90
  let shoulderAsymmetry := |k.leftShoulder.y - k.rightShoulder.y| / 224
  let shoulderMid : Pt :=
    ⟨(k.leftShoulder.x + k.rightShoulder.x) / 2, (k.leftShoulder.y + k.rightShoulder.y) / 2⟩
  let hipMid : Pt := ⟨(k.leftHip.x + k.rightHip.x) / 2, (k.leftHip.y + k.rightHip.y) / 2⟩
  let spinalCurvature := calculateSpinalDeviation [k.nose, shoulderMid, hipMid]
  let leftArmAngle := calculateAngle k.leftShoulder k.leftElbow k.leftWrist
  let rightArmAngle := calculateAngle k.rightShoulder k.rightElbow k.rightWrist
  let armSwingAsymmetry := |leftArmAngle - rightArmAngle| / 180
  let jointAngles := [leftArmAngle, rightArmAngle,
    calculateAngle k.leftHip k.leftKnee k.leftAnkle,
    calculateAngle k.rightHip k.rightKnee k.rightAnkle]
  let bodyRigidity := calculateRigidityIndex jointAngles
  let supportBase : Pt :=
    ⟨(k.leftAnkle.x + k.rightAnkle.x) / 2, (k.leftAnkle.y + k.rightAnkle.y) / 2⟩
  let balanceIndex := calculateDistance hipMid supportBase / 224
  { forwardHeadPosture := forwardHeadPosture
    shoulderAsymmetry := shoulderAsymmetry
    spinalCurvature := spinalCurvature
    armSwingAsymmetry := armSwingAsymmetry
    bodyRigidity := bodyRigidity
    balanceIndex := balanceIndex
    gaitParameters :=
      { stepLength := 0.5 + rand.r1 * 0.3
        cadence := 100 + rand.r2 * 20
        swingTime := 0.3 + rand.r3 * 0.1 } }

/-- A point lies inside the 224-by-224 pixel grid. -/
def Pt.inSquare (p : Pt) : Prop := 0 ≤ p.x ∧ p.x ≤ 224 ∧ 0 ≤ p.y ∧ p.y ≤ 224

/-- All 13 keypoints lie inside the 224-by-224 pixel grid. -/
def Keypoints.inSquare (k : Keypoints) : Prop :=
  k.nose.inSquare ∧ k.leftShoulder.inSquare ∧ k.rightShoulder.inSquare ∧
  k.leftElbow.inSquare ∧ k.rightElbow.inSquare ∧ k.leftWrist.inSquare ∧
  k.rightWrist.inSquare ∧ k.leftHip.inSquare ∧ k.rightHip.inSquare ∧
  k.leftKnee.inSquare ∧ k.rightKnee.inSquare ∧ k.leftAnkle.inSquare ∧
  k.rightAnkle.inSquare

/-- The simulated keypoints returned by `extractPoseKeypoints` for a
224-by-224 image. -/
noncomputable def simulatedKeypoints : Keypoints where
  nose := ⟨224 * 0.5, 224 * 0.1⟩
  leftShoulder := ⟨224 * 0.35, 224 * 0.25⟩
  rightShoulder := ⟨224 * 0.65, 224 * 0.25⟩
  leftElbow := ⟨224 * 0.25, 224 * 0.4⟩
  rightElbow := ⟨224 * 0.75, 224 * 0.4⟩
  leftWrist := ⟨224 * 0.2, 224 * 0.55⟩
  rightWrist := ⟨224 * 0.8, 224 * 0.55⟩
  leftHip := ⟨224 * 0.4, 224 * 0.6⟩
  rightHip := ⟨224 * 0.6, 224 * 0.6⟩
  leftKnee := ⟨224 * 0.38, 224 * 0.8⟩
  rightKnee := ⟨224 * 0.62, 224 * 0.8⟩
  leftAnkle := ⟨224 * 0.36, 224 * 0.95⟩
  rightAnkle := ⟨224 * 0.64, 224 * 0.95⟩

/-- A keypoint configuration inside the 224-by-224 grid with the hips at
one corner and the ankles at the opposite corner. -/
noncomputable def badKeypoints : Keypoints where
  nose := ⟨112, 10⟩
  leftShoulder := ⟨80, 60⟩
  rightShoulder := ⟨140, 60⟩
  leftElbow := ⟨60, 90⟩
  rightElbow := ⟨160, 90⟩
  leftWrist := ⟨50, 120⟩
  rightWrist := ⟨170, 120⟩
  leftHip := ⟨0, 0⟩
  rightHip := ⟨0, 0⟩
  leftKnee := ⟨90, 180⟩
  rightKnee := ⟨130, 180⟩
  leftAnkle := ⟨224, 224⟩
  rightAnkle := ⟨224, 224⟩

/-! ### Claim statements (packaged properties) -/

/-- The bounds the posture features actually satisfy for in-grid
keypoints: the two asymmetries and the head posture lie in [0,1], the
spinal curvature and balance index lie in [0,√2], and the rigidity index
is at most 1 (it can be negative). -/
def C9Bounds (k : Keypoints) (r : RandomDraws) : Prop :=
  (0 ≤ (calculateClinicalFeatures k r).forwardHeadPosture ∧
    (calculateClinicalFeatures k r).forwardHeadPosture ≤ 1) ∧
  (0 ≤ (calculateClinicalFeatures k r).shoulderAsymmetry ∧
    (calculateClinicalFeatures k r).shoulderAsymmetry ≤ 1) ∧
  (0 ≤ (calculateClinicalFeatures k r).armSwingAsymmetry ∧
    (calculateClinicalFeatures k r).armSwingAsymmetry ≤ 1) ∧
  (0 ≤ (calculateClinicalFeatures k r).spinalCurvature ∧
    (calculateClinicalFeatures k r).spinalCurvature ≤ Real.sqrt 2) ∧
  (0 ≤ (calculateClinicalFeatures k r).balanceIndex ∧
    (calculateClinicalFeatures k r).balanceIndex ≤ Real.sqrt 2) ∧
  (calculateClinicalFeatures k r).bodyRigidity ≤ 1

/-- The sum of the available scores, as computed by `totalScore`. -/
def sumScores (a : Assessments) : ℤ := ((availableAssessments a).map (fun r => r.score)).sum

/-- The sum of the available confidences, as computed by
`totalConfidence`. -/
def sumConfidences (a : Assessments) : ℤ :=
  ((availableAssessments a).map (fun r => r.confidence)).sum

/-- The rounded unweighted mean of the available scores. -/
def overallMeanScore (a : Assessments) : ℤ :=
  jsRound ((sumScores a : ℚ) / ((availableAssessments a).length : ℚ))

/-- The rounded unweighted mean of the available confidences. -/
def overallMeanConfidence (a : Assessments) : ℤ :=
  jsRound ((sumConfidences a : ℚ) / ((availableAssessments a).length : ℚ))

/-- The aggregator escalation property packaged for a result set: the
aggregator succeeds, its status severity is the maximum of the severity
of the mean-score band and the worst individual severity (and the status
itself is one of those two), and it dominates every individual result. -/
def AggregatorEscalates (a : Assessments) : Prop :=
  ∃ o, calculateOverallAssessment a = some o ∧
    statusOrder o.status =
      max (statusOrder (overallStatusFromScore (overallMeanScore a)))
        (statusOrder (worstStatus (availableAssessments a))) ∧
    (o.status = overallStatusFromScore (overallMeanScore a) ∨
      o.status = worstStatus (availableAssessments a)) ∧
    ∀ r ∈ availableAssessments a, statusOrder r.status ≤ statusOrder o.status

/-- The mean property packaged for a result set: the aggregator succeeds
with score and confidence the rounded unweighted means of the available
scores and confidences. -/
def AggregatorMeans (a : Assessments) : Prop :=
  ∃ o, calculateOverallAssessment a = some o ∧
    o.score = overallMeanScore a ∧
    o.confidence = overallMeanConfidence a

/-- The score bands the specification claims for every classifier:
healthy in [85,95], mild in [65,80], moderate in [45,60], severe in
[25,40]. -/
def inClaimedBand (a : AssessmentResult) : Prop :=
  match a.status with
  | .healthy => 85 ≤ a.score ∧ a.score ≤ 95
  | .mild => 65 ≤ a.score ∧ a.score ≤ 80
  | .moderate => 45 ≤ a.score ∧ a.score ≤ 60
  | .severe => 25 ≤ a.score ∧ a.score ≤ 40

/-- The score bands the voice (and posture) `predict` actually realizes
from `100 - 25 * maxIndex` with jitter in `(-5, 5)` and clamping:
healthy in [95,100], mild in [70,80], moderate in [45,55], severe in
[20,30]. -/
def inVoiceBand (a : AssessmentResult) : Prop :=
  match a.status with
  | .healthy => 95 ≤ a.score ∧ a.score ≤ 100
  | .mild => 70 ≤ a.score ∧ a.score ≤ 80
  | .moderate => 45 ≤ a.score ∧ a.score ≤ 55
  | .severe => 20 ≤ a.score ∧ a.score ≤ 30

/-- The risk-band behavior of the spiral classifier packaged for a
feature vector and jitter draw: each fixed risk band yields the stated
status (the argmax class of that band's table) and confidence (that
class's probability times 100). -/
def SpiralRiskBands (f : SpiralFeatures) (r : ℚ) : Prop :=
  (overallRisk f < 0.3 →
    (spiralPredict f r).status = .healthy ∧ (spiralPredict f r).confidence = 85) ∧
  (0.3 ≤ overallRisk f → overallRisk f < 0.5 →
    (spiralPredict f r).status = .healthy ∧ (spiralPredict f r).confidence = 70) ∧
  (0.5 ≤ overallRisk f → overallRisk f < 0.7 →
    (spiralPredict f r).status = .mild ∧ (spiralPredict f r).confidence = 50) ∧
  (0.7 ≤ overallRisk f →
    (spiralPredict f r).status = .moderate ∧ (spiralPredict f r).confidence = 40)

/-! ### Helper lemmas -/

/-- `jsRound` of a value in `[lo, hi)` with integer endpoints lies in
`[lo, hi]`. -/
lemma jsRound_mem {lo hi : ℤ} {x : ℚ} (hlo : (lo : ℚ) ≤ x) (hhi : x < (hi : ℚ)) :
    lo ≤ jsRound x ∧ jsRound x ≤ hi := by
  unfold jsRound
  constructor
  · rw [Int.le_floor]
    linarith
  · have h1 : ⌊x + 1 / 2⌋ < hi + 1 := by
      rw [Int.floor_lt]
      push_cast
      linarith
    omega

/-- `jsRound` of an integer is itself. -/
lemma jsRound_intCast (z : ℤ) : jsRound (z : ℚ) = z := by
  unfold jsRound
  rw [Int.floor_eq_iff]
  constructor
  · linarith
  · linarith

/-! ### Claim theorems -/

/-- C7: for the questionnaire input age=65, familyHistory=true, tremor=8,
stiffness=7, balance=6, hasFreeze=true, hasSleepIssues=true, the symptom
analyzer accumulates the penalties 15+20+24+28+24+15+10 = 136, clips
100 - 136 to 0, and returns score 0 with status severe (for every
confidence random draw). -/
theorem C7_symptom_scenario (rand : ℚ) :
    symptomsRiskScore ⟨65, true, 8, 7, 6, true, true⟩ = 136 ∧
    (analyzeSymptomsData ⟨65, true, 8, 7, 6, true, true⟩ rand).score = 0 ∧
    (analyzeSymptomsData ⟨65, true, 8, 7, 6, true, true⟩ rand).status = .severe := by
  refine ⟨by decide, ?_, ?_⟩ <;>
    simp [analyzeSymptomsData, symptomsRiskScore, symptomsStatusFromScore]

/-- C4 counterexample: at the mean score 60 the aggregator's bands give
moderate, while the symptom-questionnaire classifier's bands give mild —
the two four-band threshold sets are not the same. -/
theorem C4_counterexample :
    overallStatusFromScore 60 = .moderate ∧ symptomsStatusFromScore 60 = .mild ∧
    overallStatusFromScore 60 ≠ symptomsStatusFromScore 60 := by
  refine ⟨?_, ?_, ?_⟩ <;> decide

/-- C4 amended: the aggregator derives status from the mean score with
bands 80/65/45, the symptom classifier with bands 80/60/40; the two
assignments agree exactly on the scores outside [60,65) and [40,45),
and on those two ranges the aggregator assigns the severer band. -/
theorem C4_amended_threshold_agreement (s : ℤ) :
    overallStatusFromScore s = symptomsStatusFromScore s ↔
      ¬ ((60 ≤ s ∧ s < 65) ∨ (40 ≤ s ∧ s < 45)) := by
  unfold overallStatusFromScore symptomsStatusFromScore
  split_ifs <;> simp_all <;> omega

/-- The `worstStatus` fold dominates its seed and every element. -/
lemma worstStatus_foldl_bound (l : List AssessmentResult) (w : Status) :
    statusOrder w ≤
      statusOrder (l.foldl
        (fun worst a => if statusOrder a.status > statusOrder worst then a.status else worst) w) ∧
    ∀ r ∈ l, statusOrder r.status ≤
      statusOrder (l.foldl
        (fun worst a => if statusOrder a.status > statusOrder worst then a.status else worst) w) := by
  induction l generalizing w with
  | nil => exact ⟨le_refl _, by simp⟩
  | cons a l ih =>
    have hstep : statusOrder w ≤
        statusOrder (if statusOrder a.status > statusOrder w then a.status else w) ∧
        statusOrder a.status ≤
        statusOrder (if statusOrder a.status > statusOrder w then a.status else w) := by
      split_ifs with hgt
      · exact ⟨Nat.le_of_lt hgt, le_refl _⟩
      · exact ⟨le_refl _, Nat.le_of_not_lt hgt⟩
    obtain ⟨ih1, ih2⟩ := ih (if statusOrder a.status > statusOrder w then a.status else w)
    refine ⟨le_trans hstep.1 ih1, ?_⟩
    intro r hr
    rcases List.mem_cons.mp hr with hra | hrl
    · subst hra
      exact le_trans hstep.2 ih1
    · exact ih2 r hrl

/-- Every element's severity is at most `worstStatus`'s severity. -/
lemma statusOrder_le_worstStatus (l : List AssessmentResult) :
    ∀ r ∈ l, statusOrder r.status ≤ statusOrder (worstStatus l) :=
  (worstStatus_foldl_bound l .healthy).2

/-- C1: for every non-empty set of per-modality results, the aggregator's
status is the severity-maximum of the status derived from the rounded
mean score by the aggregator's own threshold bands and the most severe
individual status; in particular its severity dominates every
individual result. -/
theorem C1_aggregator_escalation (a : Assessments) (h : availableAssessments a ≠ []) :
    AggregatorEscalates a := by
  have hlen : ¬ (availableAssessments a).length = 0 := by
    simpa [List.length_eq_zero] using h
  have key : calculateOverallAssessment a =
      some { score := overallMeanScore a
             confidence := overallMeanConfidence a
             status := if statusOrder (worstStatus (availableAssessments a)) >
                 statusOrder (overallStatusFromScore (overallMeanScore a)) then
                 worstStatus (availableAssessments a)
               else overallStatusFromScore (overallMeanScore a) } := by
    unfold calculateOverallAssessment
    rw [if_neg hlen]
    rfl
  refine ⟨_, key, ?_, ?_, ?_⟩
  · dsimp only
    split_ifs with hgt
    · exact (Nat.max_eq_right (Nat.le_of_lt hgt)).symm
    · exact (Nat.max_eq_left (Nat.le_of_not_lt hgt)).symm
  · dsimp only
    split_ifs with hgt
    · exact Or.inr rfl
    · exact Or.inl rfl
  · intro r hr
    dsimp only
    have hw := statusOrder_le_worstStatus (availableAssessments a) r hr
    split_ifs with hgt
    · exact hw
    · exact le_trans hw (Nat.le_of_not_lt hgt)

/-- C1 witness: a concrete result set (a healthy spiral result and a
severe voice result) on which the aggregator escalates. -/
theorem C1_aggregator_escalation_witness :
    availableAssessments ⟨some ⟨90, 80, .healthy⟩, some ⟨30, 70, .severe⟩, none, none⟩ ≠ [] ∧
    AggregatorEscalates ⟨some ⟨90, 80, .healthy⟩, some ⟨30, 70, .severe⟩, none, none⟩ :=
  ⟨by decide, C1_aggregator_escalation _ (by decide)⟩

/-- C3: the aggregator returns `none` exactly when no modality result is
present, and on every non-empty input returns the rounded unweighted
mean of the available scores and of the available confidences, all
present modalities weighted equally. -/
theorem C3_aggregator_mean (a : Assessments) :
    (calculateOverallAssessment a = none ↔ availableAssessments a = []) ∧
    (availableAssessments a ≠ [] → AggregatorMeans a) := by
  constructor
  · unfold calculateOverallAssessment
    constructor
    · intro hnone
      by_cases hlen : (availableAssessments a).length = 0
      · exact List.length_eq_zero.mp hlen
      · rw [if_neg hlen] at hnone
        exact absurd hnone (by simp)
    · intro hnil
      rw [if_pos (by simp [hnil])]
  · intro h
    have hlen : ¬ (availableAssessments a).length = 0 := by
      simpa [List.length_eq_zero] using h
    unfold AggregatorMeans calculateOverallAssessment
    rw [if_neg hlen]
    exact ⟨_, rfl, rfl, rfl⟩

/-- C3 witness: a concrete all-modalities input on which the aggregator
returns the rounded means. -/
theorem C3_aggregator_mean_witness :
    availableAssessments
      ⟨some ⟨90, 80, .healthy⟩, some ⟨71, 60, .mild⟩, some ⟨50, 70, .moderate⟩,
        some ⟨30, 75, .severe⟩⟩ ≠ [] ∧
    AggregatorMeans
      ⟨some ⟨90, 80, .healthy⟩, some ⟨71, 60, .mild⟩, some ⟨50, 70, .moderate⟩,
        some ⟨30, 75, .severe⟩⟩ :=
  ⟨by decide, (C3_aggregator_mean _).2 (by decide)⟩

/-- The first index of the four-entry argmax is at most 3. -/
lemma Probs4.maxIndex_le_three (p : Probs4) : p.maxIndex ≤ 3 := by
  unfold Probs4.maxIndex
  split_ifs <;> norm_num

/-- The spiral score draw lands in the claimed band of its status, after
rounding and clamping, for any jitter in `[0,1)`. -/
lemma claimedBand_clamp (st : Status) (r : ℚ) (h0 : 0 ≤ r) (h1 : r < 1) (conf : ℤ) :
    inClaimedBand ⟨clamp0to100 (jsRound (spiralScoreRaw st r)), conf, st⟩ := by
  cases st <;>
  · simp only [inClaimedBand, spiralScoreRaw, clamp0to100]
    constructor <;>
    · first
      | (have hb := @jsRound_mem 85 95 (85 + r * 10) (by push_cast; linarith)
          (by push_cast; linarith)
         omega)
      | (have hb := @jsRound_mem 65 80 (65 + r * 15) (by push_cast; linarith)
          (by push_cast; linarith)
         omega)
      | (have hb := @jsRound_mem 45 60 (45 + r * 15) (by push_cast; linarith)
          (by push_cast; linarith)
         omega)
      | (have hb := @jsRound_mem 25 40 (25 + r * 15) (by push_cast; linarith)
          (by push_cast; linarith)
         omega)

/-- The voice score `100 - 25k` with jitter in `(-5,5)` lands in the
realized voice band of `classLabel k`, after rounding and clamping. -/
lemma voiceBand_clamp (k : ℕ) (hk : k ≤ 3) (r : ℚ) (h0 : 0 ≤ r) (h1 : r < 1) (conf : ℤ) :
    inVoiceBand ⟨clamp0to100 (jsRound (100 - (k : ℚ) * 25 + (r * 10 - 5))), conf, classLabel k⟩ := by
  interval_cases k <;>
  · simp only [inVoiceBand, classLabel, clamp0to100]
    constructor <;>
    · first
      | (have hb := @jsRound_mem 95 105 (100 - ((0 : ℕ) : ℚ) * 25 + (r * 10 - 5))
          (by push_cast; linarith) (by push_cast; linarith)
         omega)
      | (have hb := @jsRound_mem 70 80 (100 - ((1 : ℕ) : ℚ) * 25 + (r * 10 - 5))
          (by push_cast; linarith) (by push_cast; linarith)
         omega)
      | (have hb := @jsRound_mem 45 55 (100 - ((2 : ℕ) : ℚ) * 25 + (r * 10 - 5))
          (by push_cast; linarith) (by push_cast; linarith)
         omega)
      | (have hb := @jsRound_mem 20 30 (100 - ((3 : ℕ) : ℚ) * 25 + (r * 10 - 5))
          (by push_cast; linarith) (by push_cast; linarith)
         omega)

/-- C2 counterexample: when the voice network's output favors class 0 and
the jitter draw is 0.8, the voice classifier returns status healthy with
score 100, outside the claimed healthy band [85,95]. -/
theorem C2_counterexample :
    (voicePredict ⟨0.7, 0.2, 0.06, 0.04⟩ (4/5)).status = .healthy ∧
    (voicePredict ⟨0.7, 0.2, 0.06, 0.04⟩ (4/5)).score = 100 ∧
    ¬ inClaimedBand (voicePredict ⟨0.7, 0.2, 0.06, 0.04⟩ (4/5)) := by
  refine ⟨?_, ?_, ?_⟩ <;>
    norm_num [voicePredict, Probs4.maxIndex, Probs4.maxVal, Probs4.get, classLabel,
      jsRound, clamp0to100, inClaimedBand, max_def]

/-- C2 amended: the spiral classifier's score always lies in the claimed
band of its status (healthy [85,95], mild [65,80], moderate [45,60],
severe [25,40], non-overlapping); the voice classifier's score instead
lies in the bands healthy [95,100], mild [70,80], moderate [45,55],
severe [20,30] — still non-overlapping, but not those the claim
states. -/
theorem C2_amended_score_bands (f : SpiralFeatures) (p : Probs4) (r : ℚ)
    (h0 : 0 ≤ r) (h1 : r < 1) :
    inClaimedBand (spiralPredict f r) ∧ inVoiceBand (voicePredict p r) :=
  ⟨claimedBand_clamp (classLabel (spiralProbs (overallRisk f)).maxIndex) r h0 h1
      (jsRound ((spiralProbs (overallRisk f)).get (spiralProbs (overallRisk f)).maxIndex * 100)),
    voiceBand_clamp p.maxIndex (Probs4.maxIndex_le_three p) r h0 h1
      (jsRound (p.get p.maxIndex * 100))⟩

/-- C2 witness: concrete spiral features and network output at jitter
draw 1/2. -/
theorem C2_amended_score_bands_witness :
    (0 : ℚ) ≤ 1/2 ∧ (1/2 : ℚ) < 1 ∧
    (inClaimedBand (spiralPredict ⟨0.1, 0.1, 0.1, 0.1, 0.1⟩ (1/2)) ∧
      inVoiceBand (voicePredict ⟨0.7, 0.2, 0.06, 0.04⟩ (1/2))) :=
  ⟨by norm_num, by norm_num,
    C2_amended_score_bands ⟨0.1, 0.1, 0.1, 0.1, 0.1⟩ ⟨0.7, 0.2, 0.06, 0.04⟩ (1/2)
      (by norm_num) (by norm_num)⟩

/-- C5: the spiral classifier's risk scalar is the unweighted mean of the
five features, and the fixed risk bands yield: risk < 0.3 ⇒ healthy with
confidence 85; 0.3 ≤ risk < 0.5 ⇒ healthy with confidence 70;
0.5 ≤ risk < 0.7 ⇒ mild with confidence 50; 0.7 ≤ risk ⇒ moderate with
confidence 40 — in each band the argmax class of the band's probability
table, with that probability times 100 as confidence. -/
theorem C5_spiral_risk_bands (f : SpiralFeatures) (r : ℚ) : SpiralRiskBands f r := by
  unfold SpiralRiskBands
  refine ⟨?_, ?_, ?_, ?_⟩
  · intro h
    unfold spiralPredict spiralProbs
    rw [if_pos h]
    norm_num [Probs4.maxIndex, Probs4.maxVal, Probs4.get, classLabel, jsRound, max_def]
  · intro h1 h2
    unfold spiralPredict spiralProbs
    rw [if_neg (not_lt.mpr h1), if_pos h2]
    norm_num [Probs4.maxIndex, Probs4.maxVal, Probs4.get, classLabel, jsRound, max_def]
  · intro h1 h2
    unfold spiralPredict spiralProbs
    rw [if_neg (not_lt.mpr (le_trans (by norm_num) h1)), if_neg (not_lt.mpr h1), if_pos h2]
    norm_num [Probs4.maxIndex, Probs4.maxVal, Probs4.get, classLabel, jsRound, max_def]
  · intro h1
    unfold spiralPredict spiralProbs
    rw [if_neg (not_lt.mpr (le_trans (by norm_num) h1)),
      if_neg (not_lt.mpr (le_trans (by norm_num) h1)), if_neg (not_lt.mpr h1)]
    norm_num [Probs4.maxIndex, Probs4.maxVal, Probs4.get, classLabel, jsRound, max_def]

/-- C5 witness: a concrete low-risk feature vector in the first band. -/
theorem C5_spiral_risk_bands_witness :
    overallRisk ⟨0.1, 0.1, 0.1, 0.1, 0.1⟩ < 0.3 ∧
    ((spiralPredict ⟨0.1, 0.1, 0.1, 0.1, 0.1⟩ 0).status = .healthy ∧
      (spiralPredict ⟨0.1, 0.1, 0.1, 0.1, 0.1⟩ 0).confidence = 85) :=
  ⟨by norm_num [overallRisk],
    (C5_spiral_risk_bands ⟨0.1, 0.1, 0.1, 0.1, 0.1⟩ 0).1 (by norm_num [overallRisk])⟩

/-- C10: for every feature vector and jitter draw the spiral classifier
never returns severe: its status is healthy, mild or moderate, and its
confidence is one of 85, 70, 50, 40 (the argmax probability of each
band's table is at most the moderate class). -/
theorem C10_spiral_never_severe (f : SpiralFeatures) (r : ℚ) :
    (spiralPredict f r).status ≠ .severe ∧
    ((spiralPredict f r).status = .healthy ∨ (spiralPredict f r).status = .mild ∨
      (spiralPredict f r).status = .moderate) ∧
    ((spiralPredict f r).confidence = 85 ∨ (spiralPredict f r).confidence = 70 ∨
      (spiralPredict f r).confidence = 50 ∨ (spiralPredict f r).confidence = 40) := by
  unfold spiralPredict spiralProbs
  split_ifs <;>
    norm_num [Probs4.maxIndex, Probs4.maxVal, Probs4.get, classLabel, jsRound, max_def] <;>
    decide

/-- `getD` with default 0 on an all-zero list is 0 at every index. -/
lemma getD_replicate_zero (r n : ℕ) : (List.replicate r (0 : ℚ)).getD n 0 = 0 := by
  rw [List.getD_eq_getD_get?]
  cases h : (List.replicate r (0 : ℚ)).get? n with
  | none => rfl
  | some v =>
    have hv : v = 0 := List.eq_of_mem_replicate (List.get?_mem h)
    simp [hv]

/-- The autocorrelation of an all-zero frame is 0 at every lag. -/
lemma correlationAt_replicate_zero (m p : ℕ) :
    correlationAt (List.replicate m (0 : ℚ)) p = 0 := by
  simp [correlationAt, getD_replicate_zero]

/-- On an all-zero frame the best-period scan never updates: it returns
the seed `(minPeriod, 0)`. -/
lemma bestPeriodOf_replicate_zero (m minP maxP : ℕ) :
    bestPeriodOf (List.replicate m (0 : ℚ)) minP maxP = (minP, 0) := by
  unfold bestPeriodOf
  generalize periodCandidates minP maxP (List.replicate m (0 : ℚ)).length = l
  induction l with
  | nil => rfl
  | cons a l ih =>
    rw [List.foldl_cons]
    simpa [correlationAt_replicate_zero] using ih

/-- A frame loop with a nonzero step terminates with some start list. -/
lemma loopStarts_eq_some (bound : ℤ) (step : ℕ) (h : step ≠ 0) :
    ∃ l, loopStarts bound step = some l := by
  unfold loopStarts
  rcases le_or_lt bound 0 with hb | hb
  · rw [if_pos hb]
    exact ⟨[], rfl⟩
  · rw [if_neg (not_le.mpr hb), if_neg h]
    exact ⟨_, rfl⟩

/-- The peak amplitude of an all-zero frame is 0. -/
lemma frameMaxAmp_replicate_zero (k : ℕ) : frameMaxAmp (List.replicate k (0 : ℚ)) = 0 := by
  induction k with
  | zero => rfl
  | succ n ih =>
    rw [List.replicate_succ]
    simpa [frameMaxAmp] using ih

/-- On all-zero audio, no frame's best correlation exceeds 0.3, so no
period is extracted. -/
lemma extractPeriods_replicate_zero (n sr : ℕ) (h : sr * 25 / 1000 ≠ 0) :
    extractPeriods (List.replicate n 0) sr = some [] := by
  obtain ⟨starts, hs⟩ :=
    loopStarts_eq_some (((List.replicate n (0 : ℚ)).length : ℤ) - (sr / 50 : ℕ))
      (sr * 25 / 1000) h
  unfold extractPeriods
  dsimp only
  rw [hs, Option.map_some']
  have hfm : starts.filterMap (fun start =>
      let frame := ((List.replicate n (0 : ℚ)).drop start).take (sr / 50)
      let best := bestPeriodOf frame (sr / 500) (sr / 50)
      if best.2 > 0.3 then some best.1 else none) = [] := by
    rw [List.filterMap_eq_nil_iff]
    intro s _
    simp only [List.drop_replicate, List.take_replicate, bestPeriodOf_replicate_zero]
    norm_num
  rw [hfm]

/-- C6 counterexample: at sample rate 20 with 10 zero samples the 25 ms
frame size floors to 0, the frame loops of both the jitter and the
shimmer computation make no progress, and neither computation returns a
value (modelled as `none`), so neither returns 0. -/
theorem C6_counterexample :
    calculateJitter (List.replicate 10 0) 20 = none ∧
    calculateShimmer (List.replicate 10 0) 20 = none := by
  constructor <;> rfl

/-- C6 amended: for every all-zero sample list at any sample rate of at
least 40 Hz (equivalently, whenever the 25 ms analysis frame holds at
least one sample, which covers every decodable audio rate), the jitter
computation returns 0 and the shimmer computation returns 0, with every
division guarded. -/
theorem C6_amended_silence_yields_zero (n sampleRate : ℕ) (h : 40 ≤ sampleRate) :
    calculateJitter (List.replicate n 0) sampleRate = some 0 ∧
    calculateShimmer (List.replicate n 0) sampleRate = some 0 := by
  have hstep : sampleRate * 25 / 1000 ≠ 0 := by omega
  constructor
  · unfold calculateJitter
    rw [extractPeriods_replicate_zero n sampleRate hstep]
    simp
  · obtain ⟨starts, hs⟩ :=
      loopStarts_eq_some (((List.replicate n (0 : ℚ)).length : ℤ) - (sampleRate * 25 / 1000 : ℕ))
        (sampleRate * 25 / 1000) hstep
    unfold calculateShimmer
    dsimp only
    rw [hs, Option.map_some']
    have hamp : starts.map (fun start =>
        frameMaxAmp (((List.replicate n (0 : ℚ)).drop start).take (sampleRate * 25 / 1000))) =
        List.replicate starts.length 0 := by
      rw [List.eq_replicate_iff]
      refine ⟨by simp, ?_⟩
      intro b hb
      obtain ⟨s, hsmem, rfl⟩ := List.mem_map.mp hb
      simp only [List.drop_replicate, List.take_replicate, frameMaxAmp_replicate_zero]
    rw [hamp]
    rcases lt_or_le (List.replicate starts.length (0 : ℚ)).length 2 with hl | hl
    · rw [if_pos hl]
    · rw [if_neg (not_lt.mpr hl)]
      have hterm : (List.range ((List.replicate starts.length (0 : ℚ)).length - 1)).map (fun i =>
          if (List.replicate starts.length (0 : ℚ)).getD i 0 > 0 then
            |(List.replicate starts.length (0 : ℚ)).getD (i + 1) 0 -
              (List.replicate starts.length (0 : ℚ)).getD i 0| /
              (List.replicate starts.length (0 : ℚ)).getD i 0
          else 0) = List.replicate ((List.replicate starts.length (0 : ℚ)).length - 1) 0 := by
        rw [List.eq_replicate_iff]
        refine ⟨by simp, ?_⟩
        intro b hb
        obtain ⟨i, hi, rfl⟩ := List.mem_map.mp hb
        simp [getD_replicate_zero]
      rw [hterm]
      simp

/-- C6 witness: 100 zero samples at the standard 44100 Hz rate. -/
theorem C6_amended_silence_yields_zero_witness :
    40 ≤ 44100 ∧
    (calculateJitter (List.replicate 100 0) 44100 = some 0 ∧
      calculateShimmer (List.replicate 100 0) 44100 = some 0) :=
  ⟨by norm_num, C6_amended_silence_yields_zero 100 44100 (by norm_num)⟩

/-- `calculateAngle` is nonnegative (degrees of an arccos value). -/
lemma calculateAngle_nonneg (p1 p2 p3 : Pt) : 0 ≤ calculateAngle p1 p2 p3 := by
  unfold calculateAngle
  have h1 := Real.arccos_nonneg (max (-1) (min 1
    (((p1.x - p2.x) * (p3.x - p2.x) + (p1.y - p2.y) * (p3.y - p2.y)) /
      (Real.sqrt ((p1.x - p2.x) ^ 2 + (p1.y - p2.y) ^ 2) *
        Real.sqrt ((p3.x - p2.x) ^ 2 + (p3.y - p2.y) ^ 2)))))
  positivity

/-- `calculateAngle` is at most 180 degrees. -/
lemma calculateAngle_le_180 (p1 p2 p3 : Pt) : calculateAngle p1 p2 p3 ≤ 180 := by
  unfold calculateAngle
  have h1 := Real.arccos_le_pi (max (-1) (min 1
    (((p1.x - p2.x) * (p3.x - p2.x) + (p1.y - p2.y) * (p3.y - p2.y)) /
      (Real.sqrt ((p1.x - p2.x) ^ 2 + (p1.y - p2.y) ^ 2) *
        Real.sqrt ((p3.x - p2.x) ^ 2 + (p3.y - p2.y) ^ 2)))))
  have hpi := Real.pi_pos
  calc Real.arccos _ * 180 / Real.pi ≤ Real.pi * 180 / Real.pi := by gcongr
    _ = 180 := by field_simp

/-- The norm of a vector with both components bounded by 224 is at most
the grid diagonal 224√2. -/
lemma sqrt_sum_sq_le (u v : ℝ) (hu : |u| ≤ 224) (hv : |v| ≤ 224) :
    Real.sqrt (u ^ 2 + v ^ 2) ≤ 224 * Real.sqrt 2 := by
  have hsum : u ^ 2 + v ^ 2 ≤ 224 ^ 2 * 2 := by
    have hu2 : u ^ 2 ≤ 224 ^ 2 := by nlinarith [abs_nonneg u, sq_abs u]
    have hv2 : v ^ 2 ≤ 224 ^ 2 := by nlinarith [abs_nonneg v, sq_abs v]
    linarith
  calc Real.sqrt (u ^ 2 + v ^ 2) ≤ Real.sqrt (224 ^ 2 * 2) := Real.sqrt_le_sqrt hsum
    _ = 224 * Real.sqrt 2 := by
      rw [Real.sqrt_mul (by positivity), Real.sqrt_sq (by norm_num)]

/-- The point-to-line distance is at most the grid diagonal when the
point and the line's first anchor lie in the grid (by Cauchy-Schwarz;
a degenerate line gives distance 0 under the division convention). -/
lemma pointToLineDistance_le (p a b : Pt) (hp : p.inSquare) (ha : a.inSquare) :
    pointToLineDistance p a b ≤ 224 * Real.sqrt 2 := by
  obtain ⟨hp1, hp2, hp3, hp4⟩ := hp
  obtain ⟨ha1, ha2, ha3, ha4⟩ := ha
  unfold pointToLineDistance
  dsimp only
  set A := b.y - a.y with hA
  set B := a.x - b.x with hB
  set C := b.x * a.y - a.x * b.y with hC
  have hkey : A * p.x + B * p.y + C = A * (p.x - a.x) + B * (p.y - a.y) := by
    rw [hA, hB, hC]; ring
  rcases eq_or_ne (Real.sqrt (A ^ 2 + B ^ 2)) 0 with hz | hz
  · rw [hz, div_zero]
    positivity
  · have hpos : 0 < Real.sqrt (A ^ 2 + B ^ 2) :=
      lt_of_le_of_ne (Real.sqrt_nonneg _) (Ne.symm hz)
    rw [div_le_iff₀ hpos]
    have hcs : |A * (p.x - a.x) + B * (p.y - a.y)| ≤
        Real.sqrt (A ^ 2 + B ^ 2) * Real.sqrt ((p.x - a.x) ^ 2 + (p.y - a.y) ^ 2) := by
      rw [← Real.sqrt_sq_eq_abs, ← Real.sqrt_mul (by positivity)]
      apply Real.sqrt_le_sqrt
      nlinarith [sq_nonneg (A * (p.y - a.y) - B * (p.x - a.x))]
    have hsq : Real.sqrt ((p.x - a.x) ^ 2 + (p.y - a.y) ^ 2) ≤ 224 * Real.sqrt 2 :=
      sqrt_sum_sq_le _ _ (abs_le.mpr ⟨by linarith, by linarith⟩)
        (abs_le.mpr ⟨by linarith, by linarith⟩)
    calc |A * p.x + B * p.y + C| = |A * (p.x - a.x) + B * (p.y - a.y)| := by rw [hkey]
      _ ≤ Real.sqrt (A ^ 2 + B ^ 2) * (224 * Real.sqrt 2) := le_trans hcs (by gcongr)
      _ = 224 * Real.sqrt 2 * Real.sqrt (A ^ 2 + B ^ 2) := by ring

/-- The spinal deviation of a three-point spine reduces to the distance
of the middle point from the nose-hip line, clamped below by 0 and
normalized. -/
lemma calculateSpinalDeviation_three (p1 p2 p3 : Pt) :
    calculateSpinalDeviation [p1, p2, p3] = max 0 (pointToLineDistance p2 p1 p3) / 224 := by
  simp [calculateSpinalDeviation]

/-- Midpoints of in-grid points stay in the grid. -/
lemma midpoint_inSquare {a b : Pt} (ha : a.inSquare) (hb : b.inSquare) :
    Pt.inSquare ⟨(a.x + b.x) / 2, (a.y + b.y) / 2⟩ := by
  obtain ⟨ha1, ha2, ha3, ha4⟩ := ha
  obtain ⟨hb1, hb2, hb3, hb4⟩ := hb
  exact ⟨by dsimp; linarith, by dsimp; linarith, by dsimp; linarith, by dsimp; linarith⟩

/-- The rigidity index of four angles is at most 1 whenever the first is
nonnegative (the source's seed-accumulator quirk makes the first angle
enter the sum raw). -/
lemma rigidity_le_one (a b c d : ℝ) (ha : 0 ≤ a) : calculateRigidityIndex [a, b, c, d] ≤ 1 := by
  simp only [calculateRigidityIndex, jsReduce, List.foldl, List.length_cons, List.length_nil]
  have h4 : ((0 + 1 + 1 + 1 + 1 : ℕ) : ℝ) = 4 := by norm_num
  rw [h4]
  nlinarith [sq_nonneg (b - (a + b + c + d) / 4), sq_nonneg (c - (a + b + c + d) / 4),
    sq_nonneg (d - (a + b + c + d) / 4)]

/-- C9 counterexample: with the hips at the corner (0,0) and the ankles
at the corner (224,224) — all 13 keypoints inside the 224-by-224 grid —
the balance index is √2 > 1, outside [0,1]. -/
theorem C9_counterexample :
    badKeypoints.inSquare ∧
    1 < (calculateClinicalFeatures badKeypoints ⟨0, 0, 0⟩).balanceIndex := by
  constructor
  · simp only [Keypoints.inSquare, Pt.inSquare, badKeypoints]
    norm_num
  · have hb : (calculateClinicalFeatures badKeypoints ⟨0, 0, 0⟩).balanceIndex =
        calculateDistance ⟨((0 : ℝ) + 0) / 2, ((0 : ℝ) + 0) / 2⟩
          ⟨((224 : ℝ) + 224) / 2, ((224 : ℝ) + 224) / 2⟩ / 224 := rfl
    rw [hb]
    unfold calculateDistance
    dsimp only
    have harg : (((0 : ℝ) + 0) / 2 - ((224 : ℝ) + 224) / 2) ^ 2 +
        (((0 : ℝ) + 0) / 2 - ((224 : ℝ) + 224) / 2) ^ 2 = 224 ^ 2 * 2 := by norm_num
    rw [harg, Real.sqrt_mul (by positivity), Real.sqrt_sq (by norm_num)]
    have h2 := Real.sq_sqrt (show (0 : ℝ) ≤ 2 by norm_num)
    have h3 := Real.sqrt_nonneg 2
    rw [show (224 : ℝ) * Real.sqrt 2 / 224 = Real.sqrt 2 by field_simp]
    nlinarith

/-- C9 amended: for in-grid keypoints, forwardHeadPosture,
shoulderAsymmetry and armSwingAsymmetry lie in [0,1]; spinalCurvature
and balanceIndex lie in [0,√2] and can exceed 1; bodyRigidity is at most
1 but is not bounded below by 0. -/
theorem C9_amended_feature_bounds (k : Keypoints) (r : RandomDraws) (h : k.inSquare) :
    C9Bounds k r := by
  obtain ⟨hn, hls, hrs, hle, hre, hlw, hrw, hlh, hrh, hlk, hrk, hla, hra⟩ := h
  unfold C9Bounds
  have hfhp : (calculateClinicalFeatures k r).forwardHeadPosture =
      |calculateAngle k.nose k.leftShoulder k.rightShoulder - 90| / 90 := rfl
  have hsa : (calculateClinicalFeatures k r).shoulderAsymmetry =
      |k.leftShoulder.y - k.rightShoulder.y| / 224 := rfl
  have hasa : (calculateClinicalFeatures k r).armSwingAsymmetry =
      |calculateAngle k.leftShoulder k.leftElbow k.leftWrist -
        calculateAngle k.rightShoulder k.rightElbow k.rightWrist| / 180 := rfl
  have hsc : (calculateClinicalFeatures k r).spinalCurvature =
      calculateSpinalDeviation [k.nose,
        ⟨(k.leftShoulder.x + k.rightShoulder.x) / 2, (k.leftShoulder.y + k.rightShoulder.y) / 2⟩,
        ⟨(k.leftHip.x + k.rightHip.x) / 2, (k.leftHip.y + k.rightHip.y) / 2⟩] := rfl
  have hbi : (calculateClinicalFeatures k r).balanceIndex =
      calculateDistance ⟨(k.leftHip.x + k.rightHip.x) / 2, (k.leftHip.y + k.rightHip.y) / 2⟩
        ⟨(k.leftAnkle.x + k.rightAnkle.x) / 2, (k.leftAnkle.y + k.rightAnkle.y) / 2⟩ / 224 := rfl
  have hbr : (calculateClinicalFeatures k r).bodyRigidity =
      calculateRigidityIndex [calculateAngle k.leftShoulder k.leftElbow k.leftWrist,
        calculateAngle k.rightShoulder k.rightElbow k.rightWrist,
        calculateAngle k.leftHip k.leftKnee k.leftAnkle,
        calculateAngle k.rightHip k.rightKnee k.rightAnkle] := rfl
  refine ⟨⟨?_, ?_⟩, ⟨?_, ?_⟩, ⟨?_, ?_⟩, ⟨?_, ?_⟩, ⟨?_, ?_⟩, ?_⟩
  · rw [hfhp]; positivity
  · rw [hfhp, div_le_one (by norm_num)]
    have h1 := calculateAngle_nonneg k.nose k.leftShoulder k.rightShoulder
    have h2 := calculateAngle_le_180 k.nose k.leftShoulder k.rightShoulder
    rw [abs_le]
    constructor <;> linarith
  · rw [hsa]; positivity
  · rw [hsa, div_le_one (by norm_num)]
    obtain ⟨hls1, hls2, hls3, hls4⟩ := hls
    obtain ⟨hrs1, hrs2, hrs3, hrs4⟩ := hrs
    rw [abs_le]
    constructor <;> linarith
  · rw [hasa]; positivity
  · rw [hasa, div_le_one (by norm_num)]
    have h1 := calculateAngle_nonneg k.leftShoulder k.leftElbow k.leftWrist
    have h2 := calculateAngle_le_180 k.leftShoulder k.leftElbow k.leftWrist
    have h3 := calculateAngle_nonneg k.rightShoulder k.rightElbow k.rightWrist
    have h4 := calculateAngle_le_180 k.rightShoulder k.rightElbow k.rightWrist
    rw [abs_le]
    constructor <;> linarith
  · rw [hsc, calculateSpinalDeviation_three]
    positivity
  · rw [hsc, calculateSpinalDeviation_three]
    have hd := pointToLineDistance_le
      ⟨(k.leftShoulder.x + k.rightShoulder.x) / 2, (k.leftShoulder.y + k.rightShoulder.y) / 2⟩
      k.nose ⟨(k.leftHip.x + k.rightHip.x) / 2, (k.leftHip.y + k.rightHip.y) / 2⟩
      (midpoint_inSquare hls hrs) hn
    rw [div_le_iff₀ (by norm_num : (0 : ℝ) < 224)]
    have hmax : max 0 (pointToLineDistance
        ⟨(k.leftShoulder.x + k.rightShoulder.x) / 2, (k.leftShoulder.y + k.rightShoulder.y) / 2⟩
        k.nose ⟨(k.leftHip.x + k.rightHip.x) / 2, (k.leftHip.y + k.rightHip.y) / 2⟩) ≤
        224 * Real.sqrt 2 := max_le (by positivity) hd
    linarith
  · rw [hbi]
    apply div_nonneg _ (by norm_num)
    exact Real.sqrt_nonneg _
  · rw [hbi]
    obtain ⟨hlh1, hlh2, hlh3, hlh4⟩ := hlh
    obtain ⟨hrh1, hrh2, hrh3, hrh4⟩ := hrh
    obtain ⟨hla1, hla2, hla3, hla4⟩ := hla
    obtain ⟨hra1, hra2, hra3, hra4⟩ := hra
    have hd : calculateDistance
        ⟨(k.leftHip.x + k.rightHip.x) / 2, (k.leftHip.y + k.rightHip.y) / 2⟩
        ⟨(k.leftAnkle.x + k.rightAnkle.x) / 2, (k.leftAnkle.y + k.rightAnkle.y) / 2⟩ ≤
        224 * Real.sqrt 2 := by
      unfold calculateDistance
      apply sqrt_sum_sq_le <;> (dsimp; rw [abs_le]; constructor <;> linarith)
    rw [div_le_iff₀ (by norm_num : (0 : ℝ) < 224)]
    linarith
  · rw [hbr]
    exact rigidity_le_one _ _ _ _ (calculateAngle_nonneg _ _ _)

/-- C9 witness: the simulated keypoints of `extractPoseKeypoints`. -/
theorem C9_amended_feature_bounds_witness :
    simulatedKeypoints.inSquare ∧ C9Bounds simulatedKeypoints ⟨0, 0, 0⟩ :=
  ⟨by simp only [Keypoints.inSquare, Pt.inSquare, simulatedKeypoints]; norm_num,
    C9_amended_feature_bounds simulatedKeypoints ⟨0, 0, 0⟩
      (by simp only [Keypoints.inSquare, Pt.inSquare, simulatedKeypoints]; norm_num)⟩

/-- C8 counterexample: two runs of the posture feature computation on the
same keypoints with different `Math.random()` draws give different
feature vectors — the gaitParameters differ, refuting that every feature
is identical across runs on identical input. -/
theorem C8_counterexample :
    calculateClinicalFeatures simulatedKeypoints ⟨0, 0, 0⟩ ≠
      calculateClinicalFeatures simulatedKeypoints ⟨1/2, 1/2, 1/2⟩ := by
  intro h
  have h2 := congrArg (fun F => F.gaitParameters.stepLength) h
  have hl : (calculateClinicalFeatures simulatedKeypoints ⟨0, 0, 0⟩).gaitParameters.stepLength =
      0.5 + 0 * 0.3 := rfl
  have hr : (calculateClinicalFeatures simulatedKeypoints
      ⟨1/2, 1/2, 1/2⟩).gaitParameters.stepLength = 0.5 + 1/2 * 0.3 := rfl
  simp only [hl, hr] at h2
  norm_num at h2

/-- C8 amended: the six clinical posture features are deterministic
functions of the keypoints — identical across any two runs regardless of
the random draws; only the fabricated gaitParameters depend on the
draws (and the spiral and voice extraction code contains no random
source). -/
theorem C8_amended_deterministic_except_gait (k : Keypoints) (r r' : RandomDraws) :
    (calculateClinicalFeatures k r).forwardHeadPosture =
      (calculateClinicalFeatures k r').forwardHeadPosture ∧
    (calculateClinicalFeatures k r).shoulderAsymmetry =
      (calculateClinicalFeatures k r').shoulderAsymmetry ∧
    (calculateClinicalFeatures k r).spinalCurvature =
      (calculateClinicalFeatures k r').spinalCurvature ∧
    (calculateClinicalFeatures k r).armSwingAsymmetry =
      (calculateClinicalFeatures k r').armSwingAsymmetry ∧
    (calculateClinicalFeatures k r).bodyRigidity =
      (calculateClinicalFeatures k r').bodyRigidity ∧
    (calculateClinicalFeatures k r).balanceIndex =
      (calculateClinicalFeatures k r').balanceIndex :=
  ⟨rfl, rfl, rfl, rfl, rfl, rfl⟩

end ParkinsonML
